import Mathlib

/-!
Verification development for the `progressive` school-management backend
(`progressive_app`).  The definitions below are a shallow embedding of the
relevant Python source: `models.py` (the `Mark` model, its `calculate_grade`
and `save` methods) and `views.py` (`_next_admission_number`,
`get_grade_and_gpa`, `upload_marks`, the dashboard visibility feeds,
`student_report`, `student_results_download`, `student_report_pdf`).

Numeric scores are modelled with `ℚ`: every value a `DecimalField` with two
decimal places can hold is an exact rational, and the ≥-threshold comparisons
against 60/70/80/90 performed by the source on Python floats agree with the
rational comparisons for all such values.
-/

/-- A Python value as it can appear in the `score` attribute of a `Mark`:
`None`, a string (as submitted by an HTML form), or a number
(`float`/`Decimal`, modelled as `ℚ`). -/
inductive PyVal where
  | none : PyVal
  | str (s : String) : PyVal
  | num (q : ℚ) : PyVal
deriving DecidableEq, Repr

/-! ### String/number helpers modelling Python built-ins -/

/-- Digit run to its numeric value (the usual base-10 fold). -/
def digitsVal (l : List Char) : Nat :=
  l.foldl (fun a c => 10 * a + (c.toNat - 48)) 0

/-- Python `str.strip()` restricted to ASCII whitespace: drop whitespace from
both ends. -/
def stripWs (l : List Char) : List Char :=
  ((l.dropWhile Char.isWhitespace).reverse.dropWhile Char.isWhitespace).reverse

/-- A non-empty all-digit run, as accepted by Python `int(...)` after sign
processing.  (Python additionally accepts single underscores between digits
and non-ASCII digits; no value in this development depends on those, so they
are not modelled.) -/
def parseNatDigits (l : List Char) : Option Nat :=
  if l ≠ [] ∧ l.all Char.isDigit then some (digitsVal l) else Option.none

/-- Python `int(s)` on a string: strip whitespace, optional sign, digits;
`Option.none` models the `ValueError` raised on malformed input. -/
def pyIntParse (s : String) : Option Int :=
  match stripWs s.data with
  | '+' :: rest => (parseNatDigits rest).map Int.ofNat
  | '-' :: rest => (parseNatDigits rest).map (fun n => -(n : Int))
  | l => (parseNatDigits l).map Int.ofNat

/-- Split a list at the first character satisfying `p`, returning the parts
before and after it (the splitting character is dropped). -/
def splitFirst (p : Char → Bool) : List Char → Option (List Char × List Char)
  | [] => Option.none
  | c :: cs =>
    if p c then some ([], cs)
    else (splitFirst p cs).map (fun ab => (c :: ab.1, ab.2))

/-- Mantissa of a Python float literal: `digits`, `digits.digits?`, or
`.digits`; returns its exact rational value. -/
def parseMantissa (l : List Char) : Option ℚ :=
  match splitFirst (fun c => c == '.') l with
  | some (ip, fp) =>
    if (ip = [] ∧ fp = []) ∨ ¬ ip.all Char.isDigit ∨ ¬ fp.all Char.isDigit then
      Option.none
    else
      some ((digitsVal ip : ℚ) + (digitsVal fp : ℚ) / (10 : ℚ) ^ fp.length)
  | Option.none => (parseNatDigits l).map (fun n => (n : ℚ))

/-- Exponent part of a Python float literal: optional sign then digits. -/
def parseExponent (l : List Char) : Option Int :=
  match l with
  | '+' :: rest => (parseNatDigits rest).map Int.ofNat
  | '-' :: rest => (parseNatDigits rest).map (fun n => -(n : Int))
  | _ => (parseNatDigits l).map Int.ofNat

/-- Python `float(s)` on a string: strip whitespace, optional sign, decimal
mantissa, optional `e`/`E` exponent; `Option.none` models the `ValueError`
raised on malformed input.  (`inf`/`nan` and underscore separators, which
Python also accepts, are not representable in `ℚ` resp. not needed by any
claim and are not modelled.) -/
def pyFloatParse (s : String) : Option ℚ :=
  let l := stripWs s.data
  let (neg, l) : Bool × List Char :=
    match l with
    | '+' :: rest => (false, rest)
    | '-' :: rest => (true, rest)
    | _ => (false, l)
  match splitFirst (fun c => c == 'e' || c == 'E') l with
  | some (mant, ex) =>
    match parseMantissa mant, parseExponent ex with
    | some m, some e =>
      some (if neg then -(m * (10 : ℚ) ^ e) else m * (10 : ℚ) ^ e)
    | _, _ => Option.none
  | Option.none => (parseMantissa l).map (fun m => if neg then -m else m)

/-- Python `float(x)` on a `score`-typed value: `None` raises `TypeError`,
a malformed string raises `ValueError`, numbers convert exactly. -/
def pyFloat : PyVal → Except String ℚ
  | PyVal.none => Except.error "TypeError"
  | PyVal.str v =>
    match pyFloatParse v with
    | some q => Except.ok q
    | Option.none => Except.error "ValueError"
  | PyVal.num q => Except.ok q

/-! ### The grading functions (`models.Mark.calculate_grade`,
`views.get_grade_and_gpa`) -/

/-- Model of `views.get_grade_and_gpa(score)`: `s = float(score)` (NOT wrapped in
`try`/`except`, so a `None` or malformed score propagates the exception,
modelled as `Except.error`), then the fixed threshold chain returning the
letter grade and its grade-point value. -/
def get_grade_and_gpa (score : PyVal) : Except String (String × ℚ) :=
  match pyFloat score with
  | Except.error e => Except.error e
  | Except.ok s =>
    Except.ok
      (if s ≥ 90 then ("A", 4.0)
       else if s ≥ 80 then ("B", 3.0)
       else if s ≥ 70 then ("C", 2.0)
       else if s ≥ 60 then ("D", 1.0)
       else ("F", 0.0))

/-- A row of the `Mark` model: the five foreign keys (by id), the nullable
decimal `score` and the derived `grade`.  (`date_recorded` is an
auto-timestamp no claim depends on and is not modelled.) -/
structure Mark where
  student : Nat
  subject : Nat
  teacher : Nat
  school_class : Nat
  semester : Nat
  score : PyVal
  grade : Option String
deriving DecidableEq, Repr

/-- Model of `models.Mark.calculate_grade`: `float(self.score)` inside
`try`/`except (ValueError, TypeError)` returning `"F"`, else the fixed
threshold chain. -/
def Mark.calculate_grade (m : Mark) : String :=
  match pyFloat m.score with
  | Except.error _ => "F"
  | Except.ok score =>
    if score ≥ 90 then "A"
    else if score ≥ 80 then "B"
    else if score ≥ 70 then "C"
    else if score ≥ 60 then "D"
    else "F"

/-- Model of `models.Mark.save`: if `self.score not in [None, ""]` then
`self.score = float(self.score)` (which may raise, modelled as
`Except.error`) and `self.grade = self.calculate_grade()`, else
`self.grade = None`; then the row is written. -/
def Mark.save (m : Mark) : Except String Mark :=
  if m.score = PyVal.none ∨ m.score = PyVal.str "" then
    Except.ok { m with grade := Option.none }
  else
    match pyFloat m.score with
    | Except.ok q =>
      let m' : Mark := { m with score := PyVal.num q }
      Except.ok { m' with grade := some m'.calculate_grade }
    | Except.error e => Except.error e

/-- Helper: a `Mark` carrying just a score, for stating claims about the
grading functions (the key fields are irrelevant to grading). -/
def mkMark (v : PyVal) : Mark :=
  { student := 0, subject := 0, teacher := 0, school_class := 0,
    semester := 0, score := v, grade := Option.none }

/-- The per-mark grading loop of `views.student_report`: for each mark,
`grade, gpa = get_grade_and_gpa(m.score)`; the first mark on which
`get_grade_and_gpa` raises aborts the whole view with an unhandled
exception, modelled as `Except.error`. -/
def student_report_grades : List Mark → Except String (List (String × ℚ))
  | [] => Except.ok []
  | m :: rest =>
    match get_grade_and_gpa m.score with
    | Except.ok gp =>
      match student_report_grades rest with
      | Except.ok l => Except.ok (gp :: l)
      | Except.error e => Except.error e
    | Except.error e => Except.error e

/-! ### Admission-number allocation (`views._next_admission_number`) -/

/-- Does `pat` match at the head of `s`? (Used to model Python
`str.replace` scanning.) -/
def leadMatches : List Char → List Char → Bool
  | [], _ => true
  | _ :: _, [] => false
  | p :: ps, c :: cs => p == c && leadMatches ps cs

/-- Python `adm.replace("prog", "")`: remove every non-overlapping
occurrence of the literal `"prog"` (the `prefix` in the source), scanning
left to right.  Note Python's `replace` removes ALL occurrences, not just a
leading one. -/
def removeProg : List Char → List Char
  | 'p' :: 'r' :: 'o' :: 'g' :: rest => removeProg rest
  | [] => []
  | c :: cs => c :: removeProg cs

/-- Python `str.zfill(width)` for the non-negative numerals this code
produces: left-pad with `'0'` up to `width`. -/
def zfill (width : Nat) (s : String) : String :=
  if s.length ≥ width then s
  else String.mk (List.replicate (width - s.length) '0') ++ s

/-- A row of the custom `User` model, with the fields the claims touch.
`is_authenticated` models the framework's request-user flag
(`@login_required` rejects unauthenticated requests). -/
structure User where
  id : Nat
  role : String
  admission_number : Option String
  school_class : Option Nat
  is_authenticated : Bool
deriving DecidableEq, Repr

/-- A `TeacherSubject` teaching-assignment row (teacher, subject, class by
id). -/
structure TeacherSubject where
  teacher : Nat
  subject : Nat
  school_class : Nat
deriving DecidableEq, Repr

/-- The backing store as the views see it: the object lists the queries
in the claims touch. -/
structure DB where
  users : List User
  teacher_subjects : List TeacherSubject
  marks : List Mark
  subjects : List Nat
  school_classes : List Nat
  semesters : List Nat
deriving DecidableEq, Repr

/-- Model of `views._next_admission_number`: scan the admission numbers of students
whose number starts with `"prog"`, take
`int(adm.replace("prog", ""))` (skipping values where `int` raises
`ValueError`), and return `"prog" + str(max + 1).zfill(4)`. -/
def next_admission_number (db : DB) : String :=
  let used : List String :=
    (db.users.filter (fun u =>
      u.role == "student" &&
        (match u.admission_number with
         | some a => leadMatches "prog".data a.data
         | Option.none => false))).filterMap (fun u => u.admission_number)
  let max_num : Int :=
    used.foldl (fun acc adm =>
      match pyIntParse (String.mk (removeProg adm.data)) with
      | some n => max acc n
      | Option.none => acc) 0
  "prog" ++ zfill 4 (toString (max_num + 1))

/-- Modelled from the spec: the allocation rule as §4.2 and C2 word it —
scan the existing prefix-matching admission numbers, parse the numeric
SUFFIX (the part after the prefix `"prog"`), skip values whose suffix does
not parse, and return the prefix followed by max+1 zero-padded to 4
digits.  Stated for comparison with `next_admission_number` above. -/
def specNextAdmissionNumber (db : DB) : String :=
  let used : List String :=
    (db.users.filter (fun u =>
      u.role == "student" &&
        (match u.admission_number with
         | some a => leadMatches "prog".data a.data
         | Option.none => false))).filterMap (fun u => u.admission_number)
  let max_num : Int :=
    used.foldl (fun acc adm =>
      match pyIntParse (String.mk (adm.data.drop 4)) with
      | some n => max acc n
      | Option.none => acc) 0
  "prog" ++ zfill 4 (toString (max_num + 1))

/-! ### Mark upload (`views.upload_marks`) -/

/-- Does a `Mark` row match the five-part natural key used by the
`update_or_create` call in `views.upload_marks`? -/
def matchesKey (m : Mark) (student subject teacher cls sem : Nat) : Bool :=
  m.student == student && m.subject == subject && m.teacher == teacher &&
    m.school_class == cls && m.semester == sem

/-- Model of `Mark.objects.update_or_create(student=..., subject=..., teacher=...,
school_class=..., semester=..., defaults={"score": score_value})`: if
exactly one row matches the key, set its score to the submitted string and
`save` it (recomputing the grade); if none matches, create and `save` a new
row; more than one match raises `MultipleObjectsReturned`; a `save` failure
(malformed score string) propagates.  Errors are modelled as
`Except.error`. -/
def update_or_create (marks : List Mark) (student subject teacher cls sem : Nat)
    (score_value : String) : Except String (List Mark) :=
  match marks.filter (fun m => matchesKey m student subject teacher cls sem) with
  | [] =>
    match Mark.save
        { student := student, subject := subject, teacher := teacher,
          school_class := cls, semester := sem,
          score := PyVal.str score_value, grade := Option.none } with
    | Except.ok m' => Except.ok (marks ++ [m'])
    | Except.error e => Except.error e
  | [m] =>
    match Mark.save { m with score := PyVal.str score_value } with
    | Except.ok m' =>
      Except.ok (marks.map (fun x =>
        if matchesKey x student subject teacher cls sem then m' else x))
    | Except.error e => Except.error e
  | _ => Except.error "MultipleObjectsReturned"

/-- The `for student in students` loop of `views.upload_marks`: look up the
submitted value `marks_<id>`; skip it when missing or empty; otherwise
upsert the row.  An exception from `update_or_create` aborts the loop; the
rows written so far stay written (there is no batch transaction).  The
result is `(raised exception if any, resulting mark rows)`. -/
def save_marks_loop (score_values : Nat → Option String)
    (subject teacher cls sem : Nat) :
    List User → List Mark → Option String × List Mark
  | [], acc => (Option.none, acc)
  | u :: rest, acc =>
    match score_values u.id with
    | Option.none => save_marks_loop score_values subject teacher cls sem rest acc
    | some v =>
      if v = "" then save_marks_loop score_values subject teacher cls sem rest acc
      else
        match update_or_create acc u.id subject teacher cls sem v with
        | Except.ok acc' =>
          save_marks_loop score_values subject teacher cls sem rest acc'
        | Except.error e => (some e, acc)

/-- The data of a request to `views.upload_marks`: the requesting user, the
HTTP method, the selected subject/class/semester/teacher ids (absent or
empty POST values are `Option.none`), whether `save_marks` was submitted,
and the per-student submitted score strings (`marks_<id>`). -/
structure UploadRequest where
  user : User
  is_post : Bool
  subject_id : Option Nat
  class_id : Option Nat
  semester_id : Option Nat
  teacher_id : Option Nat
  save_marks : Bool
  score_values : Nat → Option String

/-- The observable outcome of a call to `views.upload_marks`. -/
inductive UploadOutcome where
  | loginRedirect
  | notFound
  | notRegistered
  | saved
  | form
  | exception (msg : String)
deriving DecidableEq, Repr

/-- Model of `views.upload_marks`: role gate (teacher or admin), POST handling,
`get_object_or_404` of the selected subject/class/semester, resolution of
the acting teacher (an admin may select any teacher via `teacher_id`;
otherwise the requester acts), the `TeacherSubject` registration check,
then — when `save_marks` was submitted — the per-student upsert loop over
the students of the selected class. -/
def upload_marks (req : UploadRequest) (db : DB) : UploadOutcome × DB :=
  if ¬ (req.user.is_authenticated = true ∧
        (req.user.role = "teacher" ∨ req.user.role = "admin")) then
    (UploadOutcome.loginRedirect, db)
  else if req.is_post = false then
    (UploadOutcome.form, db)
  else
    match req.subject_id, req.class_id, req.semester_id with
    | some sid, some cid, some semid =>
      if db.subjects.contains sid = true ∧ db.school_classes.contains cid = true ∧
          db.semesters.contains semid = true then
        match (if req.user.role = "admin" then
                 match req.teacher_id with
                 | some tid =>
                   (db.users.find? (fun u => u.id == tid && u.role == "teacher")).map
                     (fun u => u.id)
                 | Option.none => some req.user.id
               else some req.user.id) with
        | Option.none => (UploadOutcome.notFound, db)
        | some t =>
          if db.teacher_subjects.any (fun ts =>
              ts.teacher == t && ts.subject == sid && ts.school_class == cid) = true then
            if req.save_marks = true then
              match save_marks_loop req.score_values sid t cid semid
                  (db.users.filter (fun u =>
                    u.role == "student" && u.school_class == some cid))
                  db.marks with
              | (Option.none, ms) => (UploadOutcome.saved, { db with marks := ms })
              | (some e, ms) => (UploadOutcome.exception e, { db with marks := ms })
            else (UploadOutcome.form, db)
          else (UploadOutcome.notRegistered, db)
      else (UploadOutcome.notFound, db)
    | _, _, _ => (UploadOutcome.form, db)

/-! ### Dashboard visibility feeds (`views.dashboard`) -/

/-- An `Announcement` row (creation time as a sortable stamp). -/
structure Announcement where
  id : Nat
  visibility : String
  created_at : Nat
deriving DecidableEq, Repr

/-- An `Event` row (event date as a sortable stamp). -/
structure Event where
  id : Nat
  visibility : String
  date : Nat
deriving DecidableEq, Repr

/-- Insert into a list sorted by `key` in descending order. -/
def insertDescBy {α : Type} (key : α → Nat) (a : α) : List α → List α
  | [] => [a]
  | b :: bs => if key b ≤ key a then a :: b :: bs else b :: insertDescBy key a bs

/-- Model of `order_by("-field")`: sort descending by `key` (insertion sort). -/
def sortDescBy {α : Type} (key : α → Nat) : List α → List α
  | [] => []
  | a :: rest => insertDescBy key a (sortDescBy key rest)

/-- The announcements block of `views.dashboard`: admins get the 5 most
recent announcements unfiltered; a teacher gets
`filter(Q(visibility="all") | Q(visibility="teacher"))`, any other role
(i.e. a student) gets `filter(Q(visibility="all") | Q(visibility="student"))`
— each ordered by `-created_at` and truncated to 5. -/
def dashboard_announcements (role : String) (anns : List Announcement) :
    List Announcement :=
  if role = "admin" then
    (sortDescBy (fun a => a.created_at) anns).take 5
  else if role = "teacher" then
    (sortDescBy (fun a => a.created_at)
      (anns.filter (fun a => a.visibility == "all" || a.visibility == "teacher"))).take 5
  else
    (sortDescBy (fun a => a.created_at)
      (anns.filter (fun a => a.visibility == "all" || a.visibility == "student"))).take 5

/-- The events block of `views.dashboard`, same shape as the announcements
block, ordered by `-date`. -/
def dashboard_events (role : String) (evs : List Event) : List Event :=
  if role = "admin" then
    (sortDescBy (fun e => e.date) evs).take 5
  else if role = "teacher" then
    (sortDescBy (fun e => e.date)
      (evs.filter (fun e => e.visibility == "all" || e.visibility == "teacher"))).take 5
  else
    (sortDescBy (fun e => e.date)
      (evs.filter (fun e => e.visibility == "all" || e.visibility == "student"))).take 5

/-! ### Report download endpoints (`views.student_results_download`,
`views.student_report_pdf`) -/

/-- The observable outcome of the per-student PDF endpoints. -/
inductive DownloadResult where
  | loginRedirect
  | notFound
  | pdf (student_id : Nat)
deriving DecidableEq, Repr

/-- Model of `views.student_results_download`: `@login_required`, then
`get_object_or_404(User, pk=student_id, role="student")`, then the PDF is
built and returned.  No role or ownership condition appears anywhere in the
function body. -/
def student_results_download (user : User) (db : DB) (student_id : Nat) :
    DownloadResult :=
  if user.is_authenticated = false then DownloadResult.loginRedirect
  else
    match db.users.find? (fun u => u.id == student_id && u.role == "student") with
    | some s => DownloadResult.pdf s.id
    | Option.none => DownloadResult.notFound

/-- Model of `views.student_report_pdf`: delegates to `student_results_download`
("simply reuse the existing PDF generator"). -/
def student_report_pdf (user : User) (db : DB) (student_id : Nat) :
    DownloadResult :=
  student_results_download user db student_id

/-! ### Helper lemmas -/

/-- Characterisation of the §4.1 threshold chain: which letter comes out
for which scores. -/
theorem gradeChain_char (s : ℚ) :
    ((if s ≥ 90 then "A" else if s ≥ 80 then "B" else if s ≥ 70 then "C"
      else if s ≥ 60 then "D" else "F") = "A" ↔ 90 ≤ s) ∧
    ((if s ≥ 90 then "A" else if s ≥ 80 then "B" else if s ≥ 70 then "C"
      else if s ≥ 60 then "D" else "F") = "B" ↔ 80 ≤ s ∧ s < 90) ∧
    ((if s ≥ 90 then "A" else if s ≥ 80 then "B" else if s ≥ 70 then "C"
      else if s ≥ 60 then "D" else "F") = "C" ↔ 70 ≤ s ∧ s < 80) ∧
    ((if s ≥ 90 then "A" else if s ≥ 80 then "B" else if s ≥ 70 then "C"
      else if s ≥ 60 then "D" else "F") = "D" ↔ 60 ≤ s ∧ s < 70) ∧
    ((if s ≥ 90 then "A" else if s ≥ 80 then "B" else if s ≥ 70 then "C"
      else if s ≥ 60 then "D" else "F") = "F" ↔ s < 60) := by
  split_ifs with h1 h2 h3 h4 <;> simp_all <;>
    (try constructor) <;> (try intro h) <;> (try constructor) <;>
    (try intro h2) <;> linarith

/-- On a numeric score the model's grading method is the threshold chain. -/
theorem calculate_grade_num (s : ℚ) :
    (mkMark (PyVal.num s)).calculate_grade =
      (if s ≥ 90 then "A" else if s ≥ 80 then "B" else if s ≥ 70 then "C"
       else if s ≥ 60 then "D" else "F") := rfl

/-- On a numeric score the report helper succeeds with the threshold
chain's letter/point pair. -/
theorem get_grade_and_gpa_num (s : ℚ) :
    get_grade_and_gpa (PyVal.num s) =
      Except.ok
        (if s ≥ 90 then ("A", 4.0)
         else if s ≥ 80 then ("B", 3.0)
         else if s ≥ 70 then ("C", 2.0)
         else if s ≥ 60 then ("D", 1.0)
         else ("F", 0.0)) := rfl

/-- A successful `Mark.save` either took the null/empty branch (grade
cleared) or floated the score and recomputed the grade. -/
theorem Mark.save_ok_cases (m m' : Mark) (h : Mark.save m = Except.ok m') :
    ((m.score = PyVal.none ∨ m.score = PyVal.str "") ∧
      m' = { m with grade := Option.none }) ∨
    (∃ q : ℚ, pyFloat m.score = Except.ok q ∧
      m' = { m with
              score := PyVal.num q,
              grade := some (Mark.calculate_grade
                { m with score := PyVal.num q }) }) := by
  unfold Mark.save at h
  split at h
  · cases h
    exact Or.inl ⟨by assumption, rfl⟩
  · cases hpf : pyFloat m.score with
    | ok q =>
      rw [hpf] at h
      cases h
      exact Or.inr ⟨q, rfl, rfl⟩
    | error e =>
      rw [hpf] at h
      exact absurd h (by simp)

/-! ### Claim C1 -/

/-- C1: for every numeric score `s ∈ [0,100]`, the derived letter grade is
`"A"` iff `s ≥ 90`, `"B"` iff `80 ≤ s < 90`, `"C"` iff `70 ≤ s < 80`,
`"D"` iff `60 ≤ s < 70`, `"F"` iff `s < 60`; the aggregation-path
grade-point value is 4.0/3.0/2.0/1.0/0.0 for A/B/C/D/F; and the two
grading functions (`Mark.calculate_grade` and `get_grade_and_gpa`) agree on
the letter. -/
theorem c1_grade_thresholds (s : ℚ) (h0 : 0 ≤ s) (h100 : s ≤ 100) :
    ∃ p : ℚ,
      get_grade_and_gpa (PyVal.num s) =
        Except.ok ((mkMark (PyVal.num s)).calculate_grade, p) ∧
      ((mkMark (PyVal.num s)).calculate_grade = "A" ↔ 90 ≤ s) ∧
      ((mkMark (PyVal.num s)).calculate_grade = "B" ↔ 80 ≤ s ∧ s < 90) ∧
      ((mkMark (PyVal.num s)).calculate_grade = "C" ↔ 70 ≤ s ∧ s < 80) ∧
      ((mkMark (PyVal.num s)).calculate_grade = "D" ↔ 60 ≤ s ∧ s < 70) ∧
      ((mkMark (PyVal.num s)).calculate_grade = "F" ↔ s < 60) ∧
      ((mkMark (PyVal.num s)).calculate_grade = "A" → p = 4) ∧
      ((mkMark (PyVal.num s)).calculate_grade = "B" → p = 3) ∧
      ((mkMark (PyVal.num s)).calculate_grade = "C" → p = 2) ∧
      ((mkMark (PyVal.num s)).calculate_grade = "D" → p = 1) ∧
      ((mkMark (PyVal.num s)).calculate_grade = "F" → p = 0) := by
  rw [calculate_grade_num, get_grade_and_gpa_num]
  have hc := gradeChain_char s
  refine ⟨(if s ≥ 90 then (4 : ℚ) else if s ≥ 80 then 3 else if s ≥ 70 then 2
    else if s ≥ 60 then 1 else 0), ?_, hc.1, hc.2.1, hc.2.2.1, hc.2.2.2.1,
    hc.2.2.2.2, ?_, ?_, ?_, ?_, ?_⟩ <;>
    split_ifs <;> simp_all <;> try norm_num

/-- Witness for C1 at the concrete score 85. -/
theorem c1_grade_thresholds_witness :
    ∃ p : ℚ,
      get_grade_and_gpa (PyVal.num 85) =
        Except.ok ((mkMark (PyVal.num 85)).calculate_grade, p) ∧
      ((mkMark (PyVal.num 85)).calculate_grade = "A" ↔ 90 ≤ (85 : ℚ)) ∧
      ((mkMark (PyVal.num 85)).calculate_grade = "B" ↔
        80 ≤ (85 : ℚ) ∧ (85 : ℚ) < 90) ∧
      ((mkMark (PyVal.num 85)).calculate_grade = "C" ↔
        70 ≤ (85 : ℚ) ∧ (85 : ℚ) < 80) ∧
      ((mkMark (PyVal.num 85)).calculate_grade = "D" ↔
        60 ≤ (85 : ℚ) ∧ (85 : ℚ) < 70) ∧
      ((mkMark (PyVal.num 85)).calculate_grade = "F" ↔ (85 : ℚ) < 60) ∧
      ((mkMark (PyVal.num 85)).calculate_grade = "A" → p = 4) ∧
      ((mkMark (PyVal.num 85)).calculate_grade = "B" → p = 3) ∧
      ((mkMark (PyVal.num 85)).calculate_grade = "C" → p = 2) ∧
      ((mkMark (PyVal.num 85)).calculate_grade = "D" → p = 1) ∧
      ((mkMark (PyVal.num 85)).calculate_grade = "F" → p = 0) :=
  c1_grade_thresholds 85 (by norm_num) (by norm_num)

/-! ### Claim C7 -/

/-- C7: after every successful save of a `Mark`, a non-null (numeric) score
implies the stored grade is exactly the §4.1 letter for that score, a null
score implies the stored grade is null, and the saved result is independent
of whatever grade value was assigned before saving. -/
theorem c7_save_recomputes_grade (m m' : Mark)
    (h : Mark.save m = Except.ok m') :
    (∀ q : ℚ, m'.score = PyVal.num q →
      ∃ g, m'.grade = some g ∧
        (g = "A" ↔ 90 ≤ q) ∧ (g = "B" ↔ 80 ≤ q ∧ q < 90) ∧
        (g = "C" ↔ 70 ≤ q ∧ q < 80) ∧ (g = "D" ↔ 60 ≤ q ∧ q < 70) ∧
        (g = "F" ↔ q < 60)) ∧
    (m'.score = PyVal.none → m'.grade = Option.none) ∧
    (∀ g₀ : Option String, Mark.save { m with grade := g₀ } = Mark.save m) := by
  rcases Mark.save_ok_cases m m' h with ⟨hc, rfl⟩ | ⟨q, hpf, rfl⟩
  · refine ⟨?_, fun _ => rfl, fun g₀ => rfl⟩
    intro q hq
    simp only at hq
    rcases hc with hc | hc <;> rw [hc] at hq <;> exact absurd hq (by simp)
  · refine ⟨?_, ?_, fun g₀ => rfl⟩
    · intro q' hq'
      simp only at hq'
      have hqq : q' = q := by
        have := hq'
        injection this with h'
        exact h'.symm
      subst hqq
      refine ⟨Mark.calculate_grade { m with score := PyVal.num q' }, rfl, ?_⟩
      have : Mark.calculate_grade { m with score := PyVal.num q' } =
          (if q' ≥ 90 then "A" else if q' ≥ 80 then "B" else if q' ≥ 70 then "C"
           else if q' ≥ 60 then "D" else "F") := rfl
      rw [this]
      have hc := gradeChain_char q'
      exact ⟨hc.1, hc.2.1, hc.2.2.1, hc.2.2.2.1, hc.2.2.2.2⟩
    · intro hnone
      simp only at hnone
      exact absurd hnone (by simp)

/-- Witness for C7: saving a mark with score 85 stores grade "B". -/
theorem c7_save_recomputes_grade_witness :
    ∃ g, some "B" = some g ∧
      (g = "A" ↔ 90 ≤ (85 : ℚ)) ∧
      (g = "B" ↔ 80 ≤ (85 : ℚ) ∧ (85 : ℚ) < 90) ∧
      (g = "C" ↔ 70 ≤ (85 : ℚ) ∧ (85 : ℚ) < 80) ∧
      (g = "D" ↔ 60 ≤ (85 : ℚ) ∧ (85 : ℚ) < 70) ∧
      (g = "F" ↔ (85 : ℚ) < 60) := by
  have h : Mark.save (mkMark (PyVal.num 85)) =
      Except.ok { mkMark (PyVal.num 85) with grade := some "B" } := by
    unfold Mark.save
    norm_num [mkMark, pyFloat, Mark.calculate_grade]
    rintro (h | h) <;> simp_all
  exact (c7_save_recomputes_grade (mkMark (PyVal.num 85))
    { mkMark (PyVal.num 85) with grade := some "B" } h).1 85 rfl

/-! ### Claim C5 -/

/-- C5 counterexample: the claim says that for a `Mark` with a null score
the report view's per-mark grading yields `"F"` rather than failing.  In
the code `get_grade_and_gpa` calls `float(score)` with no exception
handler, so a null score raises `TypeError` and the report fails: at the
concrete input `[mkMark PyVal.none]` the grading loop is an error, and
`get_grade_and_gpa` on a null score is not `("F", _)` for any grade
point. -/
theorem c5_counterexample :
    get_grade_and_gpa PyVal.none = Except.error "TypeError" ∧
    student_report_grades [mkMark PyVal.none] = Except.error "TypeError" ∧
    ¬ ∃ p : ℚ, get_grade_and_gpa PyVal.none = Except.ok ("F", p) := by
  refine ⟨rfl, rfl, ?_⟩
  rintro ⟨p, hp⟩
  simp [get_grade_and_gpa, pyFloat] at hp

/-- C5 amended: on a missing score the persistence path (`Mark.save`)
leaves the stored grade null, and the model's own `calculate_grade`
treats a missing or unparseable score as `"F"`; but the report view's
per-mark grading (`get_grade_and_gpa`) raises an unhandled `TypeError` on
a null score, so a report over marks containing a null score fails rather
than yielding `"F"`. -/
theorem c5_amended :
    (∀ m : Mark, m.score = PyVal.none →
      Mark.save m = Except.ok { m with grade := Option.none } ∧
      Mark.calculate_grade m = "F") ∧
    (∀ v : String, pyFloatParse v = Option.none →
      Mark.calculate_grade (mkMark (PyVal.str v)) = "F") ∧
    (∀ (marks : List Mark) (m : Mark), m ∈ marks → m.score = PyVal.none →
      ∃ e, student_report_grades marks = Except.error e) := by
  refine ⟨?_, ?_, ?_⟩
  · intro m hm
    constructor
    · rw [Mark.save, if_pos (Or.inl hm)]
    · simp [Mark.calculate_grade, pyFloat, hm]
  · intro v hv
    simp [Mark.calculate_grade, mkMark, pyFloat, hv]
  · intro marks
    induction marks with
    | nil => intro m hm; cases hm
    | cons a rest ih =>
      intro m hm hs
      rcases List.mem_cons.mp hm with rfl | hmem
      · exact ⟨"TypeError",
          by simp [student_report_grades, get_grade_and_gpa, pyFloat, hs]⟩
      · rcases ih m hmem hs with ⟨e, he⟩
        cases hga : get_grade_and_gpa a.score with
        | error ea => exact ⟨ea, by simp [student_report_grades, hga]⟩
        | ok gp => exact ⟨e, by simp [student_report_grades, hga, he]⟩

/-- Witness for C5 (amended) at a concrete null-score mark. -/
theorem c5_amended_witness :
    (Mark.save (mkMark PyVal.none) =
      Except.ok { mkMark PyVal.none with grade := Option.none } ∧
      Mark.calculate_grade (mkMark PyVal.none) = "F") ∧
    (∃ e, student_report_grades [mkMark PyVal.none] = Except.error e) :=
  ⟨c5_amended.1 (mkMark PyVal.none) rfl,
   c5_amended.2.2 [mkMark PyVal.none] (mkMark PyVal.none) (by simp) rfl⟩

/-! ### Claim C2 -/

/-- An all-digit run is left unchanged by `removeProg` (no digit can start
an occurrence of `"prog"`). -/
theorem removeProg_digits (t : List Char) (h : t.all Char.isDigit = true) :
    removeProg t = t := by
  induction t with
  | nil => rfl
  | cons c cs ih =>
    simp only [List.all_cons, Bool.and_eq_true] at h
    have hcp : c ≠ 'p' := by
      intro hc
      rw [hc] at h
      simp at h
    rw [removeProg.eq_def]
    split <;> simp_all

/-- A list that `leadMatches "prog"` decomposes as `"prog"` followed by its
drop-4 remainder. -/
theorem leadMatchesProg_decomp (l : List Char)
    (h : leadMatches "prog".data l = true) :
    l = 'p' :: 'r' :: 'o' :: 'g' :: l.drop 4 := by
  rcases l with _ | ⟨c1, _ | ⟨c2, _ | ⟨c3, _ | ⟨c4, rest⟩⟩⟩⟩ <;>
    simp_all [leadMatches] <;> tauto

/-- C2 counterexample: the claim computes the next admission number from
the max parseable numeric SUFFIX, skipping values whose suffix does not
parse.  The code instead parses the value with ALL occurrences of `"prog"`
removed.  For the existing set `{"progprog5"}` the suffix `"prog5"` is
unparseable, so the claim's rule allocates `"prog0001"`, while the code
computes `int("5") = 5` and allocates `"prog0006"`. -/
theorem c2_counterexample :
    next_admission_number
      { users := [{ id := 1, role := "student",
                    admission_number := some "progprog5",
                    school_class := Option.none, is_authenticated := true }],
        teacher_subjects := [], marks := [], subjects := [],
        school_classes := [], semesters := [] } = "prog0006" ∧
    specNextAdmissionNumber
      { users := [{ id := 1, role := "student",
                    admission_number := some "progprog5",
                    school_class := Option.none, is_authenticated := true }],
        teacher_subjects := [], marks := [], subjects := [],
        school_classes := [], semesters := [] } = "prog0001" ∧
    "prog0006" ≠ "prog0001" := by
  refine ⟨by decide, by decide, by decide⟩

/-- C2 amended: the code removes every occurrence of `"prog"` from each
prefix-matching admission number and parses the result; whenever every
prefix-matching student admission number has an all-digit remainder after
the 4-character prefix (so `"prog"` cannot occur in the remainder), this
coincides with the spec's max-numeric-suffix-plus-one rule; in particular,
given existing numbers `{prog0001, prog0003}` the next allocated number is
`prog0004`. -/
theorem c2_next_admission :
    (∀ db : DB,
      (∀ u ∈ db.users, u.role = "student" →
        ∀ a, u.admission_number = some a →
          leadMatches "prog".data a.data = true →
          (a.data.drop 4).all Char.isDigit = true) →
      next_admission_number db = specNextAdmissionNumber db) ∧
    next_admission_number
      { users := [{ id := 1, role := "student",
                    admission_number := some "prog0001",
                    school_class := Option.none, is_authenticated := true },
                  { id := 2, role := "student",
                    admission_number := some "prog0003",
                    school_class := Option.none, is_authenticated := true }],
        teacher_subjects := [], marks := [], subjects := [],
        school_classes := [], semesters := [] } = "prog0004" := by
  constructor
  · intro db h
    unfold next_admission_number specNextAdmissionNumber
    simp only []
    congr 2
    congr 1
    congr 1
    apply List.foldl_ext
    intro acc adm hmem
    rcases List.mem_filterMap.mp hmem with ⟨u, hu, hadm⟩
    rcases List.mem_filter.mp hu with ⟨huser, hpred⟩
    rw [hadm] at hpred
    rw [Bool.and_eq_true] at hpred
    rcases hpred with ⟨hrole, hlead⟩
    have hrole' : u.role = "student" := by simpa using hrole
    have hdig := h u huser hrole' adm hadm hlead
    have hdecomp := leadMatchesProg_decomp adm.data hlead
    have h1 : removeProg adm.data = adm.data.drop 4 := by
      conv_lhs => rw [hdecomp]
      rw [show removeProg ('p' :: 'r' :: 'o' :: 'g' :: adm.data.drop 4) =
          removeProg (adm.data.drop 4) from rfl]
      exact removeProg_digits _ hdig
    rw [h1]
  · decide

/-- Witness for C2 (amended) on the concrete set `{prog0001, prog0003}`. -/
theorem c2_next_admission_witness :
    next_admission_number
      { users := [{ id := 1, role := "student",
                    admission_number := some "prog0001",
                    school_class := Option.none, is_authenticated := true },
                  { id := 2, role := "student",
                    admission_number := some "prog0003",
                    school_class := Option.none, is_authenticated := true }],
        teacher_subjects := [], marks := [], subjects := [],
        school_classes := [], semesters := [] } =
    specNextAdmissionNumber
      { users := [{ id := 1, role := "student",
                    admission_number := some "prog0001",
                    school_class := Option.none, is_authenticated := true },
                  { id := 2, role := "student",
                    admission_number := some "prog0003",
                    school_class := Option.none, is_authenticated := true }],
        teacher_subjects := [], marks := [], subjects := [],
        school_classes := [], semesters := [] } :=
  c2_next_admission.1 _ (by decide)

/-! ### Claim C3 -/

/-- The empty submitted string does not parse as a float. -/
theorem pyFloatParse_empty : pyFloatParse "" = Option.none := by decide

/-- Replacing matching elements in a list with no matching element changes
nothing about the matching sublist. -/
theorem filter_map_nil (p : Mark → Bool) (r : Mark) (ms : List Mark)
    (h : ms.filter p = []) :
    (ms.map (fun x => if p x then r else x)).filter p = [] := by
  induction ms with
  | nil => rfl
  | cons a rest ih =>
    rw [List.filter_eq_nil] at h
    have hpa : ¬ p a = true := h a (by simp)
    have hrest : rest.filter p = [] := by
      rw [List.filter_eq_nil]
      intro x hx
      exact h x (by simp [hx])
    have hhead : (if p a = true then r else a) = a := if_neg hpa
    rw [List.map_cons, hhead, List.filter_cons_of_neg hpa]
    exact ih hrest

/-- Replacing the unique matching element of a list by a matching `r`
leaves `[r]` as the matching sublist. -/
theorem filter_map_replace (p : Mark → Bool) (r : Mark) (hr : p r = true)
    (ms : List Mark) (m : Mark) (h : ms.filter p = [m]) :
    (ms.map (fun x => if p x then r else x)).filter p = [r] := by
  induction ms with
  | nil => simp at h
  | cons a rest ih =>
    by_cases hpa : p a = true
    · rw [List.filter_cons_of_pos hpa] at h
      have hrest : rest.filter p = [] := (List.cons_eq_cons.mp h).2
      have hhead : (if p a = true then r else a) = r := if_pos hpa
      rw [List.map_cons, hhead, List.filter_cons_of_pos hr]
      rw [filter_map_nil p r rest hrest]
    · rw [List.filter_cons_of_neg hpa] at h
      have hhead : (if p a = true then r else a) = a := if_neg hpa
      rw [List.map_cons, hhead, List.filter_cons_of_neg hpa]
      exact ih h

/-- One upsert with a parseable score string succeeds and leaves exactly
one row for the five-part key, carrying the parsed score and its derived
grade — provided the key had at most one row before. -/
theorem update_or_create_ok (ms : List Mark) (st su te cl se : Nat) (v : String)
    (q : ℚ) (hv : pyFloatParse v = some q)
    (hlen : (ms.filter (fun m => matchesKey m st su te cl se)).length ≤ 1) :
    ∃ ms', update_or_create ms st su te cl se v = Except.ok ms' ∧
      ms'.filter (fun m => matchesKey m st su te cl se) =
        [{ student := st, subject := su, teacher := te, school_class := cl,
           semester := se, score := PyVal.num q,
           grade := some (Mark.calculate_grade (mkMark (PyVal.num q))) }] := by
  have hvne : v ≠ "" := by
    intro he
    rw [he, pyFloatParse_empty] at hv
    cases hv
  have hguard : ∀ m : Mark, m.score = PyVal.str v →
      ¬ (m.score = PyVal.none ∨ m.score = PyVal.str "") := by
    intro m hsc
    rw [hsc]
    rintro (hc | hc)
    · cases hc
    · injection hc with hc'
      exact hvne hc'
  unfold update_or_create
  cases hf : ms.filter (fun m => matchesKey m st su te cl se) with
  | nil =>
    have hsave : Mark.save
        { student := st, subject := su, teacher := te, school_class := cl,
          semester := se, score := PyVal.str v, grade := Option.none } =
        Except.ok
          { student := st, subject := su, teacher := te,
            school_class := cl, semester := se, score := PyVal.num q,
            grade := some (Mark.calculate_grade (mkMark (PyVal.num q))) } := by
      rw [Mark.save, if_neg (hguard _ rfl)]
      simp [pyFloat, hv, Mark.calculate_grade, mkMark]
    rw [hsave]
    refine ⟨_, rfl, ?_⟩
    rw [List.filter_append, hf, List.nil_append, List.filter_cons]
    simp [matchesKey]
  | cons m tail =>
    cases tail with
    | nil =>
      have hkm : matchesKey m st su te cl se = true := by
        have hm : m ∈ ms.filter (fun m => matchesKey m st su te cl se) := by
          rw [hf]; simp
        exact (List.mem_filter.mp hm).2
      have hsave : Mark.save { m with score := PyVal.str v } =
          Except.ok
            { m with
                score := PyVal.num q,
                grade := some (Mark.calculate_grade
                  { m with score := PyVal.num q }) } := by
        rw [Mark.save, if_neg (hguard _ rfl)]
        simp [pyFloat, hv]
      simp only [hsave]
      refine ⟨_, rfl, ?_⟩
      have hr : matchesKey
          { m with
              score := PyVal.num q,
              grade := some (Mark.calculate_grade
                { m with score := PyVal.num q }) }
          st su te cl se = true := hkm
      rw [filter_map_replace _ _ hr ms m hf]
      have hfields :
          (((m.student = st ∧ m.subject = su) ∧ m.teacher = te) ∧
            m.school_class = cl) ∧ m.semester = se := by
        simpa [matchesKey, Bool.and_eq_true, beq_iff_eq] using hkm
      obtain ⟨⟨⟨⟨h1, h2⟩, h3⟩, h4⟩, h5⟩ := hfields
      congr 1
      cases m
      simp_all [Mark.calculate_grade, pyFloat, mkMark]
    | cons m2 tail2 =>
      rw [hf] at hlen
      simp at hlen

/-- C3: mark upload is an upsert keyed by the five-tuple — uploading a
parseable score twice for the same five-tuple (same or later batch, on a
store where the key had at most one row, the invariant the upsert
maintains) succeeds and leaves exactly one `Mark` row for that key,
carrying the latest score and its derived grade. -/
theorem c3_upsert_single_row (ms : List Mark) (st su te cl se : Nat)
    (v₁ v₂ : String) (q₁ q₂ : ℚ)
    (h₁ : pyFloatParse v₁ = some q₁) (h₂ : pyFloatParse v₂ = some q₂)
    (hlen : (ms.filter (fun m => matchesKey m st su te cl se)).length ≤ 1) :
    ∃ ms₁ ms₂,
      update_or_create ms st su te cl se v₁ = Except.ok ms₁ ∧
      update_or_create ms₁ st su te cl se v₂ = Except.ok ms₂ ∧
      ms₂.filter (fun m => matchesKey m st su te cl se) =
        [{ student := st, subject := su, teacher := te, school_class := cl,
           semester := se, score := PyVal.num q₂,
           grade := some (Mark.calculate_grade (mkMark (PyVal.num q₂))) }] := by
  obtain ⟨ms₁, hu1, hf1⟩ := update_or_create_ok ms st su te cl se v₁ q₁ h₁ hlen
  have hlen1 : (ms₁.filter (fun m => matchesKey m st su te cl se)).length ≤ 1 := by
    rw [hf1]; simp
  obtain ⟨ms₂, hu2, hf2⟩ := update_or_create_ok ms₁ st su te cl se v₂ q₂ h₂ hlen1
  exact ⟨ms₁, ms₂, hu1, hu2, hf2⟩

/-- Witness for C3: uploading "85" then "91" for the same five-tuple on an
empty store leaves exactly one row with score 91 and grade "A". -/
theorem c3_upsert_single_row_witness :
    ∃ ms₁ ms₂,
      update_or_create [] 1 2 3 4 5 "85" = Except.ok ms₁ ∧
      update_or_create ms₁ 1 2 3 4 5 "91" = Except.ok ms₂ ∧
      ms₂.filter (fun m => matchesKey m 1 2 3 4 5) =
        [{ student := 1, subject := 2, teacher := 3, school_class := 4,
           semester := 5, score := PyVal.num 91,
           grade := some (Mark.calculate_grade (mkMark (PyVal.num 91))) }] :=
  c3_upsert_single_row [] 1 2 3 4 5 "85" "91" 85 91 (by decide) (by decide)
    (by decide)

/-! ### Claim C9 -/

/-- Saving never changes the student key field. -/
theorem Mark.save_student (m m' : Mark) (h : Mark.save m = Except.ok m') :
    m'.student = m.student := by
  rcases Mark.save_ok_cases m m' h with ⟨_, rfl⟩ | ⟨q, _, rfl⟩ <;> rfl

/-- Replacing `p`-matching elements by an element that fails `q` leaves the
`q`-sublist unchanged, provided every `p`-matching element fails `q`. -/
theorem filter_map_invariant (p q : Mark → Bool) (r : Mark) (hrq : q r = false)
    (h : ∀ x, p x = true → q x = false) (ms : List Mark) :
    (ms.map (fun x => if p x then r else x)).filter q = ms.filter q := by
  induction ms with
  | nil => rfl
  | cons a rest ih =>
    by_cases hpa : p a = true
    · have hhead : (if p a = true then r else a) = r := if_pos hpa
      rw [List.map_cons, hhead, List.filter_cons_of_neg (by simp [hrq]),
        List.filter_cons_of_neg (by simp [h a hpa])]
      exact ih
    · have hhead : (if p a = true then r else a) = a := if_neg hpa
      rw [List.map_cons, hhead, List.filter_cons, List.filter_cons]
      rw [ih]

/-- A successful upsert keyed on student `st` does not change the rows of
any other student `sid`. -/
theorem update_or_create_other_student (ms : List Mark)
    (st su te cl se : Nat) (v : String) (sid : Nat) (hne : st ≠ sid)
    (ms' : List Mark) (h : update_or_create ms st su te cl se v = Except.ok ms') :
    ms'.filter (fun m => m.student == sid) =
      ms.filter (fun m => m.student == sid) := by
  unfold update_or_create at h
  cases hf : ms.filter (fun m => matchesKey m st su te cl se) with
  | nil =>
    rw [hf] at h
    cases hs : Mark.save
        { student := st, subject := su, teacher := te, school_class := cl,
          semester := se, score := PyVal.str v, grade := Option.none } with
    | ok mN =>
      rw [hs] at h
      cases h
      have hstu : mN.student = st := Mark.save_student _ _ hs
      rw [List.filter_append, List.filter_cons_of_neg (by simp [hstu, hne]),
        List.filter_nil, List.append_nil]
    | error e =>
      rw [hs] at h
      cases h
  | cons m tail =>
    cases tail with
    | nil =>
      rw [hf] at h
      cases hs : Mark.save { m with score := PyVal.str v } with
      | ok mN =>
        simp only [hs] at h
        cases h
        have hstu : mN.student = m.student :=
          Mark.save_student { m with score := PyVal.str v } mN hs
        have hkm : matchesKey m st su te cl se = true := by
          have hm : m ∈ ms.filter (fun m => matchesKey m st su te cl se) := by
            rw [hf]; simp
          exact (List.mem_filter.mp hm).2
        have hmst : m.student = st := by
          have hx := hkm
          simp [matchesKey, Bool.and_eq_true, beq_iff_eq] at hx
          exact hx.1.1.1.1
        apply filter_map_invariant
        · simp [hstu, hmst, hne]
        · intro x hx
          have hxs : x.student = st := by
            simp [matchesKey, Bool.and_eq_true, beq_iff_eq] at hx
            exact hx.1.1.1.1
          simp [hxs, hne]
      | error e =>
        simp only [hs] at h
        cases h
    | cons m2 t2 =>
      rw [hf] at h
      cases h

/-- The upload loop leaves the rows of a student with an empty or missing
submission untouched, whether it finishes or aborts on an exception. -/
theorem save_marks_loop_preserves (score_values : Nat → Option String)
    (su te cl se : Nat) (sid : Nat)
    (h : score_values sid = Option.none ∨ score_values sid = some "") :
    ∀ (students : List User) (acc : List Mark),
      ((save_marks_loop score_values su te cl se students acc).2).filter
          (fun m => m.student == sid) =
        acc.filter (fun m => m.student == sid) := by
  intro students
  induction students with
  | nil => intro acc; rfl
  | cons u rest ih =>
    intro acc
    rw [save_marks_loop]
    cases hsv : score_values u.id with
    | none => exact ih acc
    | some v =>
      split
      case h_1 heq => exact absurd heq (by simp)
      case h_2 v2 heq =>
        injection heq with hv2
        subst hv2
        by_cases hv : v = ""
        · rw [if_pos hv]
          exact ih acc
        · rw [if_neg hv]
          have hne : u.id ≠ sid := by
            intro he
            rw [he] at hsv
            rcases h with h | h <;> rw [h] at hsv
            · cases hsv
            · injection hsv with h2
              exact hv h2.symm
          split
          · rename_i acc2 huoc
            rw [ih acc2]
            exact update_or_create_other_student acc u.id su te cl se v sid hne
              acc2 huoc
          · rfl

/-- Pair-shaped corollary of `save_marks_loop_preserves`, for use against
the loop-result match in `upload_marks`. -/
theorem save_marks_loop_pair {score_values : Nat → Option String}
    {su te cl se sid : Nat} {students : List User} {acc : List Mark}
    {err : Option String} {ms : List Mark}
    (h : score_values sid = Option.none ∨ score_values sid = some "")
    (heq : save_marks_loop score_values su te cl se students acc = (err, ms)) :
    ms.filter (fun m => m.student == sid) =
      acc.filter (fun m => m.student == sid) := by
  have hp := save_marks_loop_preserves score_values su te cl se sid h students acc
  rw [heq] at hp
  exact hp

/-- C9: in a mark-upload batch, a student whose submitted value is empty or
absent has no `Mark` row created and no existing row modified — the rows
carrying that student id are identical before and after the request,
whatever the request and store. -/
theorem c9_empty_submission_untouched (req : UploadRequest) (db : DB) (sid : Nat)
    (h : req.score_values sid = Option.none ∨ req.score_values sid = some "") :
    ((upload_marks req db).2).marks.filter (fun m => m.student == sid) =
      db.marks.filter (fun m => m.student == sid) := by
  unfold upload_marks
  repeat' split
  all_goals try rfl
  all_goals
    rename_i ms2 heq
    exact save_marks_loop_pair h heq

/-- Witness for C9: a batch that saves a score for student 2 leaves student
1's (empty-submission) rows untouched. -/
theorem c9_empty_submission_untouched_witness :
    ((upload_marks
      { user := { id := 7, role := "teacher", admission_number := Option.none,
                  school_class := Option.none, is_authenticated := true },
        is_post := true, subject_id := some 1, class_id := some 2,
        semester_id := some 3, teacher_id := Option.none, save_marks := true,
        score_values := fun i => if i == 2 then some "85" else Option.none }
      { users := [{ id := 1, role := "student", admission_number := Option.none,
                    school_class := some 2, is_authenticated := true },
                  { id := 2, role := "student", admission_number := Option.none,
                    school_class := some 2, is_authenticated := true }],
        teacher_subjects := [{ teacher := 7, subject := 1, school_class := 2 }],
        marks := [], subjects := [1], school_classes := [2],
        semesters := [3] }).2).marks.filter (fun m => m.student == 1) =
    ([] : List Mark).filter (fun m => m.student == 1) :=
  c9_empty_submission_untouched _ _ 1 (Or.inl (by decide))

/-! ### Claim C6 -/

/-- C6: a teacher with no `TeacherSubject` assignment for the selected
(subject, class) pair — whatever other assignments they hold — is rejected
with the not-registered error, and the store is returned unchanged. -/
theorem c6_unregistered_teacher_rejected
    (u : User) (db : DB) (sid cid semid : Nat) (teacher_id : Option Nat)
    (save_flag : Bool) (score_values : Nat → Option String)
    (hauth : u.is_authenticated = true) (hrole : u.role = "teacher")
    (hsub : db.subjects.contains sid = true)
    (hcls : db.school_classes.contains cid = true)
    (hsem : db.semesters.contains semid = true)
    (hno : ∀ ts ∈ db.teacher_subjects,
      ¬ (ts.teacher = u.id ∧ ts.subject = sid ∧ ts.school_class = cid)) :
    upload_marks
      { user := u, is_post := true, subject_id := some sid,
        class_id := some cid, semester_id := some semid,
        teacher_id := teacher_id, save_marks := save_flag,
        score_values := score_values } db =
      (UploadOutcome.notRegistered, db) := by
  have hany : db.teacher_subjects.any (fun ts =>
      ts.teacher == u.id && ts.subject == sid && ts.school_class == cid) = false := by
    rw [List.any_eq_false]
    intro ts hts
    have hn := hno ts hts
    simp only [Bool.and_eq_true, beq_iff_eq]
    tauto
  simp [upload_marks, hauth, hrole, hsub, hcls, hsem, hany]
  exact ⟨by simpa using hsub, by simpa using hcls, by simpa using hsem⟩

/-- Witness for C6: teacher 7 holds assignments for (subject 1, class 9)
and (subject 8, class 2) but not for the selected (subject 1, class 2);
the upload is rejected and the store unchanged. -/
theorem c6_unregistered_teacher_rejected_witness :
    upload_marks
      { user := { id := 7, role := "teacher", admission_number := Option.none,
                  school_class := Option.none, is_authenticated := true },
        is_post := true, subject_id := some 1, class_id := some 2,
        semester_id := some 3, teacher_id := Option.none, save_marks := true,
        score_values := fun _ => some "85" }
      { users := [], teacher_subjects :=
          [{ teacher := 7, subject := 1, school_class := 9 },
           { teacher := 7, subject := 8, school_class := 2 }],
        marks := [], subjects := [1], school_classes := [2],
        semesters := [3] } =
      (UploadOutcome.notRegistered,
        { users := [], teacher_subjects :=
            [{ teacher := 7, subject := 1, school_class := 9 },
             { teacher := 7, subject := 8, school_class := 2 }],
          marks := [], subjects := [1], school_classes := [2],
          semesters := [3] }) :=
  c6_unregistered_teacher_rejected _ _ 1 2 3 Option.none true _
    (by decide) (by decide) (by decide) (by decide) (by decide) (by decide)

/-! ### Claim C4 -/

/-- C4 counterexample: the claim says that for an admin the
teaching-assignment check is bypassed and the upload proceeds for every
selected teacher.  At this concrete input an admin selects teacher 7, who
has no `TeacherSubject` row for the selected (subject 1, class 2); the code
rejects the upload with the not-registered error and writes nothing — the
check is NOT bypassed. -/
theorem c4_counterexample :
    upload_marks
      { user := { id := 0, role := "admin", admission_number := Option.none,
                  school_class := Option.none, is_authenticated := true },
        is_post := true, subject_id := some 1, class_id := some 2,
        semester_id := some 3, teacher_id := some 7, save_marks := true,
        score_values := fun _ => some "85" }
      { users := [{ id := 0, role := "admin", admission_number := Option.none,
                    school_class := Option.none, is_authenticated := true },
                  { id := 7, role := "teacher", admission_number := Option.none,
                    school_class := Option.none, is_authenticated := true }],
        teacher_subjects := [], marks := [], subjects := [1],
        school_classes := [2], semesters := [3] } =
    (UploadOutcome.notRegistered,
      { users := [{ id := 0, role := "admin", admission_number := Option.none,
                    school_class := Option.none, is_authenticated := true },
                  { id := 7, role := "teacher", admission_number := Option.none,
                    school_class := Option.none, is_authenticated := true }],
        teacher_subjects := [], marks := [], subjects := [1],
        school_classes := [2], semesters := [3] }) := by decide

/-- C4 amended: an admin may act on behalf of any selected teacher, but the
teaching-assignment check is still enforced against that teacher: with no
assignment for (selected teacher, subject, class) the upload is rejected
with the not-registered error and the store unchanged; with such an
assignment the request is never rejected by that check (nor by the login or
not-found gates). -/
theorem c4_admin_check_enforced
    (u t : User) (db : DB) (sid cid semid tid : Nat)
    (save_flag : Bool) (score_values : Nat → Option String)
    (hauth : u.is_authenticated = true) (hrole : u.role = "admin")
    (hsub : db.subjects.contains sid = true)
    (hcls : db.school_classes.contains cid = true)
    (hsem : db.semesters.contains semid = true)
    (hfind : db.users.find? (fun x => x.id == tid && x.role == "teacher") = some t) :
    ((∀ ts ∈ db.teacher_subjects,
        ¬ (ts.teacher = t.id ∧ ts.subject = sid ∧ ts.school_class = cid)) →
      upload_marks
        { user := u, is_post := true, subject_id := some sid,
          class_id := some cid, semester_id := some semid,
          teacher_id := some tid, save_marks := save_flag,
          score_values := score_values } db =
        (UploadOutcome.notRegistered, db)) ∧
    ((∃ ts ∈ db.teacher_subjects,
        ts.teacher = t.id ∧ ts.subject = sid ∧ ts.school_class = cid) →
      (upload_marks
        { user := u, is_post := true, subject_id := some sid,
          class_id := some cid, semester_id := some semid,
          teacher_id := some tid, save_marks := save_flag,
          score_values := score_values } db).1 ≠ UploadOutcome.notRegistered ∧
      (upload_marks
        { user := u, is_post := true, subject_id := some sid,
          class_id := some cid, semester_id := some semid,
          teacher_id := some tid, save_marks := save_flag,
          score_values := score_values } db).1 ≠ UploadOutcome.loginRedirect ∧
      (upload_marks
        { user := u, is_post := true, subject_id := some sid,
          class_id := some cid, semester_id := some semid,
          teacher_id := some tid, save_marks := save_flag,
          score_values := score_values } db).1 ≠ UploadOutcome.notFound) := by
  have hmem : sid ∈ db.subjects ∧ cid ∈ db.school_classes ∧
      semid ∈ db.semesters :=
    ⟨by simpa using hsub, by simpa using hcls, by simpa using hsem⟩
  constructor
  · intro hno
    have hany : db.teacher_subjects.any (fun ts =>
        ts.teacher == t.id && ts.subject == sid && ts.school_class == cid) = false := by
      rw [List.any_eq_false]
      intro ts hts
      have hn := hno ts hts
      simp only [Bool.and_eq_true, beq_iff_eq]
      tauto
    simp [upload_marks, hauth, hrole, hsub, hcls, hsem, hfind, hany]
    exact hmem
  · intro hex
    have hany : db.teacher_subjects.any (fun ts =>
        ts.teacher == t.id && ts.subject == sid && ts.school_class == cid) = true := by
      rw [List.any_eq_true]
      rcases hex with ⟨ts, hts, h1, h2, h3⟩
      exact ⟨ts, hts, by simp [h1, h2, h3]⟩
    simp [upload_marks, hauth, hrole, hsub, hcls, hsem, hfind, hany]
    rw [if_pos hmem]
    by_cases hsf : save_flag = true
    · rw [if_pos hsf]
      refine ⟨?_, ?_, ?_⟩ <;> (split <;> simp)
    · rw [if_neg hsf]
      refine ⟨?_, ?_, ?_⟩ <;> simp

/-- Witness for C4 (amended): with no assignment rows at all, the admin's
upload on behalf of teacher 7 is rejected as not registered. -/
theorem c4_admin_check_enforced_witness :
    upload_marks
      { user := { id := 0, role := "admin", admission_number := Option.none,
                  school_class := Option.none, is_authenticated := true },
        is_post := true, subject_id := some 1, class_id := some 2,
        semester_id := some 3, teacher_id := some 7, save_marks := false,
        score_values := fun _ => Option.none }
      { users := [{ id := 7, role := "teacher", admission_number := Option.none,
                    school_class := Option.none, is_authenticated := true }],
        teacher_subjects := [], marks := [], subjects := [1],
        school_classes := [2], semesters := [3] } =
      (UploadOutcome.notRegistered,
        { users := [{ id := 7, role := "teacher",
                      admission_number := Option.none,
                      school_class := Option.none, is_authenticated := true }],
          teacher_subjects := [], marks := [], subjects := [1],
          school_classes := [2], semesters := [3] }) :=
  (c4_admin_check_enforced
    { id := 0, role := "admin", admission_number := Option.none,
      school_class := Option.none, is_authenticated := true }
    { id := 7, role := "teacher", admission_number := Option.none,
      school_class := Option.none, is_authenticated := true }
    { users := [{ id := 7, role := "teacher", admission_number := Option.none,
                  school_class := Option.none, is_authenticated := true }],
      teacher_subjects := [], marks := [], subjects := [1],
      school_classes := [2], semesters := [3] }
    1 2 3 7 false (fun _ => Option.none)
    (by decide) (by decide) (by decide) (by decide) (by decide)
    (by decide)).1 (by decide)

/-! ### Claim C8 -/

/-- Inserting into a descending-sorted list permutes consing. -/
theorem insertDescBy_perm {α : Type} (key : α → Nat) (a : α) (l : List α) :
    (insertDescBy key a l).Perm (a :: l) := by
  induction l with
  | nil => exact List.Perm.refl _
  | cons b bs ih =>
    rw [insertDescBy]
    by_cases h : key b ≤ key a
    · rw [if_pos h]
    · rw [if_neg h]
      exact (ih.cons b).trans (List.Perm.swap a b bs)

/-- Sorting (the `order_by` model) is a permutation. -/
theorem sortDescBy_perm {α : Type} (key : α → Nat) (l : List α) :
    (sortDescBy key l).Perm l := by
  induction l with
  | nil => exact List.Perm.refl _
  | cons a rest ih =>
    rw [sortDescBy]
    exact (insertDescBy_perm key a (sortDescBy key rest)).trans (ih.cons a)

/-- Membership in a truncated sorted list implies membership in the
original. -/
theorem take_sort_mem {α : Type} (key : α → Nat) (l : List α) (n : Nat) (a : α)
    (h : a ∈ (sortDescBy key l).take n) : a ∈ l :=
  (sortDescBy_perm key l).mem_iff.mp (List.mem_of_mem_take h)

/-- When the list is no longer than the truncation bound, truncating the
sorted list keeps exactly the original members. -/
theorem take_sort_mem_iff_of_short {α : Type} (key : α → Nat) (l : List α)
    (n : Nat) (h : l.length ≤ n) (a : α) :
    a ∈ (sortDescBy key l).take n ↔ a ∈ l := by
  rw [List.take_of_length_le (by rw [(sortDescBy_perm key l).length_eq]; exact h)]
  exact (sortDescBy_perm key l).mem_iff

/-- Characterisation of a visibility-filtered, sorted, 5-truncated feed. -/
theorem feed_spec {α : Type} (key : α → Nat) (vis : α → String) (r : String)
    (l : List α) (a : α) :
    (a ∈ (sortDescBy key (l.filter (fun x => vis x == "all" || vis x == r))).take 5 →
      a ∈ l ∧ (vis a = "all" ∨ vis a = r)) ∧
    ((l.filter (fun x => vis x == "all" || vis x == r)).length ≤ 5 →
      (a ∈ (sortDescBy key (l.filter (fun x => vis x == "all" || vis x == r))).take 5 ↔
        a ∈ l ∧ (vis a = "all" ∨ vis a = r))) := by
  constructor
  · intro h
    have hm := take_sort_mem key _ 5 a h
    rw [List.mem_filter] at hm
    exact ⟨hm.1, by simpa using hm.2⟩
  · intro hlen
    rw [take_sort_mem_iff_of_short key _ 5 hlen a, List.mem_filter]
    simp

/-- C8 counterexample: the claim says an item appears in the viewer's feed
iff its visibility equals "all" or the viewer's role.  The feed is
truncated to the 5 most recent items, so with six teacher-visible
announcements the oldest matches the visibility condition but is absent
from the teacher's feed. -/
theorem c8_counterexample :
    (⟨1, "teacher", 1⟩ : Announcement) ∈
      [(⟨1, "teacher", 1⟩ : Announcement), ⟨2, "teacher", 2⟩, ⟨3, "teacher", 3⟩,
       ⟨4, "teacher", 4⟩, ⟨5, "teacher", 5⟩, ⟨6, "teacher", 6⟩] ∧
    (⟨1, "teacher", 1⟩ : Announcement).visibility = "teacher" ∧
    (⟨1, "teacher", 1⟩ : Announcement) ∉
      dashboard_announcements "teacher"
        [⟨1, "teacher", 1⟩, ⟨2, "teacher", 2⟩, ⟨3, "teacher", 3⟩,
         ⟨4, "teacher", 4⟩, ⟨5, "teacher", 5⟩, ⟨6, "teacher", 6⟩] := by decide

/-- C8 amended: every item in a teacher's or student's dashboard feed
(announcements and events alike) has visibility "all" or the viewer's
role; and whenever at most 5 items pass the visibility filter, an item
appears in the feed IFF its visibility is "all" or the viewer's role (with
more than 5 matching items the feed keeps the 5 most recent of them). -/
theorem c8_visibility_feed :
    (∀ (role : String) (anns : List Announcement) (a : Announcement),
      (role = "teacher" ∨ role = "student") →
      (a ∈ dashboard_announcements role anns →
        a ∈ anns ∧ (a.visibility = "all" ∨ a.visibility = role)) ∧
      ((anns.filter (fun x =>
          x.visibility == "all" || x.visibility == role)).length ≤ 5 →
        (a ∈ dashboard_announcements role anns ↔
          a ∈ anns ∧ (a.visibility = "all" ∨ a.visibility = role)))) ∧
    (∀ (role : String) (evs : List Event) (e : Event),
      (role = "teacher" ∨ role = "student") →
      (e ∈ dashboard_events role evs →
        e ∈ evs ∧ (e.visibility = "all" ∨ e.visibility = role)) ∧
      ((evs.filter (fun x =>
          x.visibility == "all" || x.visibility == role)).length ≤ 5 →
        (e ∈ dashboard_events role evs ↔
          e ∈ evs ∧ (e.visibility = "all" ∨ e.visibility = role)))) := by
  constructor
  · intro role anns a hrole
    rcases hrole with rfl | rfl
    · have hd : dashboard_announcements "teacher" anns =
          (sortDescBy (fun a => a.created_at)
            (anns.filter (fun x =>
              x.visibility == "all" || x.visibility == "teacher"))).take 5 := by
        simp [dashboard_announcements]
      rw [hd]
      exact feed_spec (fun a => a.created_at) (fun a => a.visibility) "teacher" anns a
    · have hd : dashboard_announcements "student" anns =
          (sortDescBy (fun a => a.created_at)
            (anns.filter (fun x =>
              x.visibility == "all" || x.visibility == "student"))).take 5 := by
        simp [dashboard_announcements]
      rw [hd]
      exact feed_spec (fun a => a.created_at) (fun a => a.visibility) "student" anns a
  · intro role evs e hrole
    rcases hrole with rfl | rfl
    · have hd : dashboard_events "teacher" evs =
          (sortDescBy (fun x => x.date)
            (evs.filter (fun x =>
              x.visibility == "all" || x.visibility == "teacher"))).take 5 := by
        simp [dashboard_events]
      rw [hd]
      exact feed_spec (fun x => x.date) (fun x => x.visibility) "teacher" evs e
    · have hd : dashboard_events "student" evs =
          (sortDescBy (fun x => x.date)
            (evs.filter (fun x =>
              x.visibility == "all" || x.visibility == "student"))).take 5 := by
        simp [dashboard_events]
      rw [hd]
      exact feed_spec (fun x => x.date) (fun x => x.visibility) "student" evs e

/-- Witness for C8 (amended): with a single teacher-visible announcement,
membership in the teacher feed is equivalent to the visibility condition. -/
theorem c8_visibility_feed_witness :
    (⟨1, "teacher", 5⟩ : Announcement) ∈
        dashboard_announcements "teacher" [⟨1, "teacher", 5⟩] ↔
      (⟨1, "teacher", 5⟩ : Announcement) ∈
          [(⟨1, "teacher", 5⟩ : Announcement)] ∧
      ((⟨1, "teacher", 5⟩ : Announcement).visibility = "all" ∨
        (⟨1, "teacher", 5⟩ : Announcement).visibility = "teacher") :=
  (c8_visibility_feed.1 "teacher" [⟨1, "teacher", 5⟩] ⟨1, "teacher", 5⟩
    (Or.inl rfl)).2 (by decide)

/-! ### Claim C10 -/

/-- C10: the per-student report-PDF endpoints check only authentication —
for EVERY authenticated user, of any role (in particular a student with a
different id), and every existing student, both `student_report_pdf` and
`student_results_download` return that student's PDF. -/
theorem c10_download_no_ownership_check (user : User) (db : DB)
    (student_id : Nat) (s : User)
    (hauth : user.is_authenticated = true)
    (hfind : db.users.find? (fun u => u.id == student_id && u.role == "student") =
      some s) :
    student_report_pdf user db student_id = DownloadResult.pdf s.id ∧
    student_results_download user db student_id = DownloadResult.pdf s.id := by
  have hd : student_results_download user db student_id = DownloadResult.pdf s.id := by
    rw [student_results_download, if_neg (by rw [hauth]; simp), hfind]
  exact ⟨hd, hd⟩

/-- Witness for C10: student 1 (authenticated) downloads student 2's
report. -/
theorem c10_download_no_ownership_check_witness :
    student_report_pdf
      { id := 1, role := "student", admission_number := Option.none,
        school_class := Option.none, is_authenticated := true }
      { users := [{ id := 2, role := "student", admission_number := Option.none,
                    school_class := Option.none, is_authenticated := true }],
        teacher_subjects := [], marks := [], subjects := [],
        school_classes := [], semesters := [] } 2 =
      DownloadResult.pdf 2 ∧
    student_results_download
      { id := 1, role := "student", admission_number := Option.none,
        school_class := Option.none, is_authenticated := true }
      { users := [{ id := 2, role := "student", admission_number := Option.none,
                    school_class := Option.none, is_authenticated := true }],
        teacher_subjects := [], marks := [], subjects := [],
        school_classes := [], semesters := [] } 2 =
      DownloadResult.pdf 2 :=
  c10_download_no_ownership_check
    { id := 1, role := "student", admission_number := Option.none,
      school_class := Option.none, is_authenticated := true }
    { users := [{ id := 2, role := "student", admission_number := Option.none,
                  school_class := Option.none, is_authenticated := true }],
      teacher_subjects := [], marks := [], subjects := [],
      school_classes := [], semesters := [] }
    2
    { id := 2, role := "student", admission_number := Option.none,
      school_class := Option.none, is_authenticated := true }
    (by decide) (by decide)
